import Mathlib

/-!
Shallow embedding of `llm_autom_reply.py`, an email automation pipeline:
validate an email record, classify it via a remote text-generation call,
generate a reply via a second remote call, and collect per-email results.

The remote service is abstracted as an `Oracle` giving the outcome of each
remote call (`none` models any exception raised by the call, `some s` a
reply with content `s`).  Strings are modelled over their character lists;
Python's `str.strip` / `str.lower` are modelled on the ASCII range, which
covers every string the program and this development manipulate.
-/

namespace EmailAutomation

/-- Inclusive character-range test, used for the ASCII classes below. -/
def charBetween (lo hi c : Char) : Bool :=
  decide (lo ≤ c) && decide (c ≤ hi)

/-- ASCII decimal digit. -/
def isDigitChar (c : Char) : Bool := charBetween '0' '9' c

/-- ASCII letter (either case). -/
def isAsciiAlpha (c : Char) : Bool :=
  charBetween 'a' 'z' c || charBetween 'A' 'Z' c

/-- Numeric value of an ASCII digit. -/
def digitVal (c : Char) : Nat := c.toNat - '0'.toNat

/-- Whitespace stripped by Python `str.strip()` (ASCII part). -/
def isPySpace (c : Char) : Bool :=
  c == ' ' || c == '\t' || c == '\n' || c == '\r' ||
    c == Char.ofNat 11 || c == Char.ofNat 12

/-- Python `s.strip()`: drop leading and trailing whitespace. -/
def pyStrip (s : String) : String :=
  String.mk (((s.data.dropWhile isPySpace).reverse.dropWhile isPySpace).reverse)

/-- Python `s.lower()` on the ASCII range: map A-Z to a-z. -/
def pyLower (s : String) : String :=
  String.mk (s.data.map fun c =>
    if charBetween 'A' 'Z' c then Char.ofNat (c.toNat + 32) else c)

/-! ## The `from`-address check

The source compiles `re.compile(r"[a-zA-Z0-9.*%±]+@[a-zA-Z0-9.-]+.[a-zA-Z]{2,}")`
and tests the address with `.match`, i.e. a prefix match anchored at the
start of the string.  Note the character class of the local part: it
contains `.`, `*`, `%` and `±` (all `-` occurrences are range operators),
and the penultimate `.` is unescaped, so it matches any character other
than a newline.  The recognisers below implement exactly that regex as a
backtracking matcher on the character list. -/

/-- Local-part character class of the source regex: `[a-zA-Z0-9.*%±]`. -/
def isLocalCode (c : Char) : Bool :=
  isAsciiAlpha c || isDigitChar c || c == '.' || c == '*' || c == '%' || c == '±'

/-- Domain character class of the source regex: `[a-zA-Z0-9.-]`. -/
def isDomainChar (c : Char) : Bool :=
  isAsciiAlpha c || isDigitChar c || c == '.' || c == '-'

/-- Tail of the source regex, `.[a-zA-Z]{2,}`: any non-newline character,
then at least two ASCII letters (prefix match, trailing content free). -/
def tldCode : List Char → Bool
  | c :: t1 :: t2 :: _ => !(c == '\n') && isAsciiAlpha t1 && isAsciiAlpha t2
  | _ => false

/-- `[a-zA-Z0-9.-]+` followed by `tldCode`: one or more domain characters,
trying the tail after each one (regex backtracking as a disjunction). -/
def domCode : List Char → Bool
  | [] => false
  | c :: rest => isDomainChar c && (tldCode rest || domCode rest)

/-- The `@` separator followed by the domain part of the source regex. -/
def atDomCode : List Char → Bool
  | '@' :: rest => domCode rest
  | _ => false

/-- `[a-zA-Z0-9.*%±]+@...`: one or more local-part characters, trying the
`@` after each one. -/
def locCode : List Char → Bool
  | [] => false
  | c :: rest => isLocalCode c && (atDomCode rest || locCode rest)

/-- `re.match` of the source's address regex against `s` (anchored at the
start, trailing characters permitted). -/
def emailMatchCode (s : String) : Bool := locCode s.data

/-- Modelled from the spec: local-part class the spec describes, i.e.
letters, digits, `.`, `_`, `%`, `+`, `-`. -/
def isLocalSpec (c : Char) : Bool :=
  isAsciiAlpha c || isDigitChar c || c == '.' || c == '_' || c == '%' ||
    c == '+' || c == '-'

/-- Modelled from the spec: a literal period, then a top-level label of at
least two letters. -/
def tldSpec : List Char → Bool
  | '.' :: t1 :: t2 :: _ => isAsciiAlpha t1 && isAsciiAlpha t2
  | _ => false

/-- Modelled from the spec: one or more domain characters then `tldSpec`. -/
def domSpec : List Char → Bool
  | [] => false
  | c :: rest => isDomainChar c && (tldSpec rest || domSpec rest)

/-- Modelled from the spec: the `@` then the spec's domain part. -/
def atDomSpec : List Char → Bool
  | '@' :: rest => domSpec rest
  | _ => false

/-- Modelled from the spec: one or more spec local-part characters then
the `@` part. -/
def locSpec : List Char → Bool
  | [] => false
  | c :: rest => isLocalSpec c && (atDomSpec rest || locSpec rest)

/-- Modelled from the spec: the address pattern as the spec words it —
one-or-more allowed local-part characters (letters, digits, `.`, `_`, `%`,
`+`, `-`), an `@`, a domain of letters/digits/`.`/`-`, a literal period,
then a top-level label of at least two letters. -/
def emailMatchSpec (s : String) : Bool := locSpec s.data

/-! ## The timestamp check

The source runs `datetime.strptime(ts, "%Y-%m-%dT%H:%M:%SZ")` inside a
`try`.  CPython's `_strptime` turns that format into a regular expression
(compiled case-insensitively, so the literals `T` and `Z` also accept
`t`/`z`): `%Y` is exactly four digits, `%m` is `1[0-2]|0[1-9]|[1-9]`,
`%d` is `3[01]|[12]\d|0[1-9]|[1-9]`, `%H` is `2[0-3]|[0-1]\d|\d`,
`%M` is `[0-5]\d|\d`, `%S` is `6[0-1]|[0-5]\d|\d`, the whole string must
be consumed, and the parsed fields must then construct a valid `datetime`
(year at least 1, day within the month, second at most 59 — the leap
seconds 60/61 pass the regex but are rejected by the constructor).
The parsers below are written in continuation-passing style so that the
ordered alternation backtracks exactly as the regex does.  Digits are
modelled as ASCII digits. -/

/-- Match one literal character, then continue. -/
def parseLit (c : Char) (l : List Char) (k : List Char → Bool) : Bool :=
  match l with
  | d :: rest => d == c && k rest
  | [] => false

/-- Match one literal character case-insensitively (upper `c` / lower
`cl`), then continue. -/
def parseLitCI (c cl : Char) (l : List Char) (k : List Char → Bool) : Bool :=
  match l with
  | d :: rest => (d == c || d == cl) && k rest
  | [] => false

/-- `%Y`: exactly four digits. -/
def parseYear4 (l : List Char) (k : Nat → List Char → Bool) : Bool :=
  match l with
  | a :: b :: c :: d :: rest =>
    isDigitChar a && isDigitChar b && isDigitChar c && isDigitChar d &&
      k (1000 * digitVal a + 100 * digitVal b + 10 * digitVal c + digitVal d) rest
  | _ => false

/-- `%m`: `1[0-2]|0[1-9]|[1-9]`, ordered alternation with backtracking. -/
def parseMonth (l : List Char) (k : Nat → List Char → Bool) : Bool :=
  (match l with
   | '1' :: c :: rest => charBetween '0' '2' c && k (10 + digitVal c) rest
   | _ => false) ||
  (match l with
   | '0' :: c :: rest => charBetween '1' '9' c && k (digitVal c) rest
   | _ => false) ||
  (match l with
   | c :: rest => charBetween '1' '9' c && k (digitVal c) rest
   | _ => false)

/-- `%d`: `3[01]|[12]\d|0[1-9]|[1-9]`, ordered alternation with
backtracking. -/
def parseDay (l : List Char) (k : Nat → List Char → Bool) : Bool :=
  (match l with
   | '3' :: c :: rest => charBetween '0' '1' c && k (30 + digitVal c) rest
   | _ => false) ||
  (match l with
   | c1 :: c2 :: rest =>
     charBetween '1' '2' c1 && isDigitChar c2 &&
       k (10 * digitVal c1 + digitVal c2) rest
   | _ => false) ||
  (match l with
   | '0' :: c :: rest => charBetween '1' '9' c && k (digitVal c) rest
   | _ => false) ||
  (match l with
   | c :: rest => charBetween '1' '9' c && k (digitVal c) rest
   | _ => false)

/-- `%H`: `2[0-3]|[0-1]\d|\d`, ordered alternation with backtracking. -/
def parseHour (l : List Char) (k : Nat → List Char → Bool) : Bool :=
  (match l with
   | '2' :: c :: rest => charBetween '0' '3' c && k (20 + digitVal c) rest
   | _ => false) ||
  (match l with
   | c1 :: c2 :: rest =>
     charBetween '0' '1' c1 && isDigitChar c2 &&
       k (10 * digitVal c1 + digitVal c2) rest
   | _ => false) ||
  (match l with
   | c :: rest => isDigitChar c && k (digitVal c) rest
   | _ => false)

/-- `%M`: `[0-5]\d|\d`, ordered alternation with backtracking. -/
def parseMinute (l : List Char) (k : Nat → List Char → Bool) : Bool :=
  (match l with
   | c1 :: c2 :: rest =>
     charBetween '0' '5' c1 && isDigitChar c2 &&
       k (10 * digitVal c1 + digitVal c2) rest
   | _ => false) ||
  (match l with
   | c :: rest => isDigitChar c && k (digitVal c) rest
   | _ => false)

/-- `%S`: `6[0-1]|[0-5]\d|\d`, ordered alternation with backtracking. -/
def parseSecond (l : List Char) (k : Nat → List Char → Bool) : Bool :=
  (match l with
   | '6' :: c :: rest => charBetween '0' '1' c && k (60 + digitVal c) rest
   | _ => false) ||
  (match l with
   | c1 :: c2 :: rest =>
     charBetween '0' '5' c1 && isDigitChar c2 &&
       k (10 * digitVal c1 + digitVal c2) rest
   | _ => false) ||
  (match l with
   | c :: rest => isDigitChar c && k (digitVal c) rest
   | _ => false)

/-- Gregorian leap year, as `datetime` uses it. -/
def isLeap (y : Nat) : Bool :=
  (y % 4 == 0 && y % 100 != 0) || y % 400 == 0

/-- Days in a month, as `datetime` uses it. -/
def daysInMonth (y m : Nat) : Nat :=
  if m == 2 then (if isLeap y then 29 else 28)
  else if m == 4 || m == 6 || m == 9 || m == 11 then 30
  else 31

/-- `datetime.strptime(s, "%Y-%m-%dT%H:%M:%SZ")` succeeds: the format
regex consumes the whole string and the parsed fields build a valid
`datetime` (year at least 1, day within the month, second at most 59). -/
def strptimeOk (s : String) : Bool :=
  parseYear4 s.data fun y l1 =>
  parseLit '-' l1 fun l2 =>
  parseMonth l2 fun m l3 =>
  parseLit '-' l3 fun l4 =>
  parseDay l4 fun d l5 =>
  parseLitCI 'T' 't' l5 fun l6 =>
  parseHour l6 fun _ l7 =>
  parseLit ':' l7 fun l8 =>
  parseMinute l8 fun _ l9 =>
  parseLit ':' l9 fun l10 =>
  parseSecond l10 fun sec l11 =>
  parseLitCI 'Z' 'z' l11 fun l12 =>
  l12.isEmpty && decide (1 ≤ y) && decide (d ≤ daysInMonth y m) &&
    decide (sec ≤ 59)

/-! ## Data model and pipeline -/

/-- One inbound email record.  The source passes plain dictionaries; each
mandatory key is modelled as an `Option` field (`none` = key absent). -/
structure Email where
  id : Option String
  «from» : Option String
  subject : Option String
  body : Option String
  timestamp : Option String
deriving DecidableEq, Repr

/-- All five mandatory keys are present
(`mandatory_keys.issubset(email.keys())`). -/
def mandatoryPresent (e : Email) : Bool :=
  e.id.isSome && e.«from».isSome && e.subject.isSome && e.body.isSome &&
    e.timestamp.isSome

/-- `EmailAutomationSystem._validate_email`: all five keys present, then
the address regex matches `from`, then the timestamp parses.  Checked in
that order, short-circuiting on the first failure. -/
def validate_email (e : Email) : Bool :=
  match e.id, e.«from», e.subject, e.body, e.timestamp with
  | some _, some f, some _, some _, some t => emailMatchCode f && strptimeOk t
  | _, _, _, _, _ => false

/-- Outcome of the two remote text-generation calls, one component per
call site.  `none` models any exception raised by the call; `some s` a
reply whose message content is `s`.  The arguments (the email, and for
generation the classification) determine the prompt the source builds. -/
structure Oracle where
  classifyResp : Email → Option String
  generateResp : Email → String → Option String

/-- The five members of `EmailProcessor.valid_categories`. -/
def validCategories : List String :=
  ["complaint", "inquiry", "feedback", "support_request", "other"]

/-- Normalisation applied to the classifier's raw reply:
`content.strip().lower()`, then membership in `valid_categories`, anything
else coerced to `"other"`. -/
def normalizeCategory (s : String) : String :=
  if pyLower (pyStrip s) ∈ validCategories then pyLower (pyStrip s) else "other"

/-- `EmailProcessor.classify_email`: on a successful remote call,
normalise the reply; on any exception, return `None`. -/
def classify_email (o : Oracle) (e : Email) : Option String :=
  match o.classifyResp e with
  | none => none
  | some content => some (normalizeCategory content)

/-- `EmailProcessor.generate_response`: on a successful remote call,
return the stripped reply text; on any exception, return `None`. -/
def generate_response (o : Oracle) (e : Email) (classification : String) :
    Option String :=
  match o.generateResp e classification with
  | none => none
  | some content => some (pyStrip content)

/-- `EmailAutomationSystem._send_response`: a log-only stub with no
failure mode and no result. -/
def send_response (_email_id : String) (_response : String) : Unit := ()

/-- Python truthiness test `not x` for an `Optional[str]`: true exactly
for `None` and the empty string. -/
def pyFalsyStrOpt : Option String → Bool
  | none => true
  | some s => s == ""

/-- `dict[key]` for a key known to be present (the source indexes
`email["id"]` only after validation has established presence); `none` is
unreachable on every path that uses this. -/
def dictGet (v : Option String) : String := v.getD ""

/-- Output record for one email, the dictionary `process_email` builds. -/
structure ProcessingResult where
  email_id : String
  success : Bool
  classification : String
  response_sent : Option String
deriving DecidableEq, Repr

/-- Which remote calls a pipeline run performs, in order. -/
inductive RemoteCall where
  | classify
  | generate
deriving DecidableEq, Repr

/-- `EmailAutomationSystem.process_email`, instrumented with the list of
remote calls the run performs: validate, else return the invalid-format
record; classify (first remote call), a falsy result returning the
classification-error record; generate (second remote call), a falsy
result returning the generation-error record; then the success record
(the notifier stub runs unconditionally and cannot fail). -/
def process_email_t (o : Oracle) (e : Email) :
    ProcessingResult × List RemoteCall :=
  if validate_email e = false then
    ({ email_id := e.id.getD "Uknown", success := false,
       classification := "Email in invalid format.", response_sent := none },
     [])
  else
    let classification := classify_email o e
    if pyFalsyStrOpt classification then
      ({ email_id := dictGet e.id, success := false,
         classification := "Email classification error.",
         response_sent := none },
       [RemoteCall.classify])
    else
      let response := generate_response o e (classification.getD "")
      if pyFalsyStrOpt response then
        ({ email_id := dictGet e.id, success := false,
           classification := "Response generation error.",
           response_sent := none },
         [RemoteCall.classify, RemoteCall.generate])
      else
        ({ email_id := dictGet e.id, success := true,
           classification := classification.getD "",
           response_sent := response },
         [RemoteCall.classify, RemoteCall.generate])

/-- `EmailAutomationSystem.process_email`: the result record alone. -/
def process_email (o : Oracle) (e : Email) : ProcessingResult :=
  (process_email_t o e).1

/-- The batch loop of `run_demonstration`: one `process_email` call per
input email, results appended in input order. -/
def runBatch (o : Oracle) (emails : List Email) : List ProcessingResult :=
  emails.map (process_email o)

/-- A result row recording a validation failure: `success` false with the
invalid-format phrase. -/
def isInvalidResult (r : ProcessingResult) : Bool :=
  !r.success && r.classification == "Email in invalid format."

/-! ## Concrete fixtures for witnesses and counterexamples -/

/-- The first sample email of the source's dataset (body abridged). -/
def emailOK : Email :=
  ⟨some "001", some "angry.customer@example.com",
   some "Broken product received", some "Damaged order, refund demanded.",
   some "2024-03-15T10:30:00Z"⟩

/-- A record with every mandatory key absent. -/
def emailNoFields : Email := ⟨none, none, none, none, none⟩

/-- A record whose `from` is the spec's example of a bad address. -/
def emailBadFrom : Email :=
  ⟨some "001", some "not-an-email", some "s", some "b",
   some "2024-03-15T10:30:00Z"⟩

/-- A record whose `from` matches the pattern the spec describes (the
underscore is in the spec's local-part class) but not the source's regex. -/
def emailSpecFrom : Email :=
  ⟨some "001", some "user_name@example.com", some "s", some "b",
   some "2024-03-15T10:30:00Z"⟩

/-- A remote service whose every call raises. -/
def oracleNone : Oracle := ⟨fun _ => none, fun _ _ => none⟩

/-- A remote service that classifies every email as `"Complaint"` and
replies `"We are sorry."` to every generation request. -/
def oracleGood : Oracle :=
  ⟨fun _ => some "Complaint", fun _ _ => some "We are sorry."⟩

/-- A remote service that classifies but raises on generation. -/
def oracleGenFail : Oracle := ⟨fun _ => some "complaint", fun _ _ => none⟩

/-- A remote service that classifies and returns an all-whitespace reply
to every generation request. -/
def oracleEmptyReply : Oracle :=
  ⟨fun _ => some "complaint", fun _ _ => some "   "⟩

/-! ## Helper lemmas -/

/-- The normalised classification is never the empty string: it is either
a member of `valid_categories` (all nonempty) or `"other"`. -/
theorem normalizeCategory_ne_empty (s : String) : normalizeCategory s ≠ "" := by
  unfold normalizeCategory
  by_cases h : pyLower (pyStrip s) ∈ validCategories
  · rw [if_pos h]
    simp [validCategories] at h
    rcases h with h | h | h | h | h <;> rw [h] <;> decide
  · rw [if_neg h]
    decide

/-- Structure eta for `Email`, used to rewrite an abstract record whose
five fields are known. -/
theorem email_eq_mk (e : Email) (i f sb b t : Option String)
    (h1 : e.id = i) (h2 : e.«from» = f) (h3 : e.subject = sb)
    (h4 : e.body = b) (h5 : e.timestamp = t) : e = ⟨i, f, sb, b, t⟩ := by
  cases e
  simp_all

/-- The invalid branch of `process_email`: result record with the
`"Uknown"`-defaulted id and the invalid-format phrase, no remote calls. -/
theorem process_email_t_invalid (o : Oracle) (e : Email)
    (hv : validate_email e = false) :
    process_email_t o e =
      ({ email_id := e.id.getD "Uknown", success := false,
         classification := "Email in invalid format.", response_sent := none },
       []) := by
  simp [process_email_t, hv]

/-- The classification-failure branch of `process_email`: one remote call
was made. -/
theorem process_email_t_classify_failed (o : Oracle) (e : Email)
    (hv : validate_email e = true)
    (hcf : pyFalsyStrOpt (classify_email o e) = true) :
    process_email_t o e =
      ({ email_id := dictGet e.id, success := false,
         classification := "Email classification error.",
         response_sent := none },
       [RemoteCall.classify]) := by
  simp [process_email_t, hv, hcf]

/-- The generation-failure branch of `process_email`: both remote calls
were made. -/
theorem process_email_t_generation_failed (o : Oracle) (e : Email)
    (hv : validate_email e = true)
    (hcf : pyFalsyStrOpt (classify_email o e) = false)
    (hrf : pyFalsyStrOpt
      (generate_response o e ((classify_email o e).getD "")) = true) :
    process_email_t o e =
      ({ email_id := dictGet e.id, success := false,
         classification := "Response generation error.",
         response_sent := none },
       [RemoteCall.classify, RemoteCall.generate]) := by
  simp [process_email_t, hv, hcf, hrf]

/-- The success branch of `process_email`. -/
theorem process_email_t_ok (o : Oracle) (e : Email)
    (hv : validate_email e = true)
    (hcf : pyFalsyStrOpt (classify_email o e) = false)
    (hrf : pyFalsyStrOpt
      (generate_response o e ((classify_email o e).getD "")) = false) :
    process_email_t o e =
      ({ email_id := dictGet e.id, success := true,
         classification := (classify_email o e).getD "",
         response_sent := generate_response o e ((classify_email o e).getD "") },
       [RemoteCall.classify, RemoteCall.generate]) := by
  simp [process_email_t, hv, hcf, hrf]

/-! ## Claims -/

/-- C1 (counterexample): the claim says the validator accepts `from` iff
it matches the spec's pattern.  `"user_name@example.com"` matches the
spec's pattern (underscore is in the spec's local-part class), yet the
validator rejects the record carrying it, because the source regex's
local-part class `[a-zA-Z0-9.*%±]` has no underscore. -/
theorem C1_spec_pattern_counterexample :
    emailMatchSpec "user_name@example.com" = true ∧
    validate_email emailSpecFrom = false := by
  decide

/-- C1 (amended): for every record with all five fields present and a
timestamp that parses, the validator accepts iff the `from` string
prefix-matches the source regex `[a-zA-Z0-9.*%±]+@[a-zA-Z0-9.-]+.[a-zA-Z]{2,}`
(local part of letters, digits, `.`, `*`, `%`, `±`; an `@`; a domain of
letters/digits/`.`/`-`; any non-newline character; then at least two
letters); in particular `"not-an-email"` is rejected. -/
theorem C1_address_check (e : Email) (i f sb b t : String)
    (h1 : e.id = some i) (h2 : e.«from» = some f) (h3 : e.subject = some sb)
    (h4 : e.body = some b) (h5 : e.timestamp = some t)
    (hok : strptimeOk t = true) :
    (validate_email e = true ↔ emailMatchCode f = true) ∧
    emailMatchCode "not-an-email" = false := by
  have he := email_eq_mk e _ _ _ _ _ h1 h2 h3 h4 h5
  subst he
  refine ⟨?_, by decide⟩
  simp [validate_email, hok]

/-- C1 (witness): the amended statement at the concrete record whose
`from` is `"not-an-email"`. -/
theorem C1_address_check_witness :
    (validate_email emailBadFrom = true ↔
      emailMatchCode "not-an-email" = true) ∧
    emailMatchCode "not-an-email" = false :=
  C1_address_check emailBadFrom "001" "not-an-email" "s" "b"
    "2024-03-15T10:30:00Z" rfl rfl rfl rfl rfl (by decide)

/-- C2 (counterexample): the claim says the sentinel id is `"Unknown"`,
but on a record with no `id` key the code's result carries the
misspelled sentinel `"Uknown"`. -/
theorem C2_sentinel_counterexample :
    validate_email emailNoFields = false ∧
    (process_email oracleNone emailNoFields).success = false ∧
    (process_email oracleNone emailNoFields).classification =
      "Email in invalid format." ∧
    (process_email oracleNone emailNoFields).response_sent = none ∧
    ¬ (process_email oracleNone emailNoFields).email_id = "Unknown" := by
  decide

/-- C2 (amended): for every record missing any of the five mandatory
fields, `validate` returns false and `process_email` returns
`success=false`, `classification="Email in invalid format."`,
`response_sent=None`; when the `id` field itself is missing the result's
`email_id` is the sentinel string `"Uknown"`. -/
theorem C2_missing_field (o : Oracle) (e : Email)
    (h : mandatoryPresent e = false) :
    validate_email e = false ∧
    process_email o e =
      { email_id := e.id.getD "Uknown", success := false,
        classification := "Email in invalid format.", response_sent := none } ∧
    (e.id = none → (process_email o e).email_id = "Uknown") := by
  have hv : validate_email e = false := by
    obtain ⟨oi, ofr, os, ob, ot⟩ := e
    cases oi <;> cases ofr <;> cases os <;> cases ob <;> cases ot <;>
      simp_all [mandatoryPresent, validate_email]
  have hres := process_email_t_invalid o e hv
  refine ⟨hv, by simp [process_email, hres], ?_⟩
  intro hid
  simp [process_email, hres, hid]

/-- C2 (witness): the amended statement at the all-fields-absent record. -/
theorem C2_missing_field_witness :
    validate_email emailNoFields = false ∧
    process_email oracleNone emailNoFields =
      { email_id := emailNoFields.id.getD "Uknown", success := false,
        classification := "Email in invalid format.", response_sent := none } ∧
    (emailNoFields.id = none →
      (process_email oracleNone emailNoFields).email_id = "Uknown") :=
  C2_missing_field oracleNone emailNoFields (by decide)

/-- C3: for every valid email whose classification call succeeds and
whose generation call succeeds with reply text that is nonempty after
stripping, `process_email` returns `success=true`, the classifier's
category, and the trimmed reply; the notifier stub cannot fail, so the
success record is returned unconditionally after generation. -/
theorem C3_success (o : Oracle) (e : Email) (i s t : String)
    (hv : validate_email e = true) (hi : e.id = some i)
    (hc : o.classifyResp e = some s)
    (hg : o.generateResp e (normalizeCategory s) = some t)
    (ht : ¬ pyStrip t = "") :
    process_email o e =
      { email_id := i, success := true,
        classification := normalizeCategory s,
        response_sent := some (pyStrip t) } := by
  have hcl : classify_email o e = some (normalizeCategory s) := by
    simp [classify_email, hc]
  have hcf : pyFalsyStrOpt (classify_email o e) = false := by
    rw [hcl]
    simp [pyFalsyStrOpt, normalizeCategory_ne_empty s]
  have hgen : generate_response o e ((classify_email o e).getD "") =
      some (pyStrip t) := by
    rw [hcl]
    simp [generate_response, hg]
  have hrf : pyFalsyStrOpt
      (generate_response o e ((classify_email o e).getD "")) = false := by
    rw [hgen]
    simp [pyFalsyStrOpt, ht]
  have hgen0 : generate_response o e (normalizeCategory s) = some (pyStrip t) := by
    simp [generate_response, hg]
  have hres := process_email_t_ok o e hv hcf hrf
  simp [process_email, hres, hcl, hgen, hgen0, dictGet, hi]

/-- C3 (witness): the concrete first sample email with a service that
answers `"Complaint"` then `"We are sorry."`. -/
theorem C3_success_witness :
    process_email oracleGood emailOK =
      { email_id := "001", success := true,
        classification := normalizeCategory "Complaint",
        response_sent := some (pyStrip "We are sorry.") } :=
  C3_success oracleGood emailOK "001" "Complaint" "We are sorry."
    (by decide) rfl rfl rfl (by decide)

/-- C4: for every valid email whose classification remote call raises,
`classify_email` returns `None` (which is not the category `"other"`)
and `process_email` returns `success=false` with the
classification-error phrase and no response. -/
theorem C4_classification_error (o : Oracle) (e : Email) (i : String)
    (hv : validate_email e = true) (hi : e.id = some i)
    (hc : o.classifyResp e = none) :
    classify_email o e = none ∧
    ¬ classify_email o e = some "other" ∧
    process_email o e =
      { email_id := i, success := false,
        classification := "Email classification error.",
        response_sent := none } := by
  have hcl : classify_email o e = none := by simp [classify_email, hc]
  have hcf : pyFalsyStrOpt (classify_email o e) = true := by
    rw [hcl]
    rfl
  have hres := process_email_t_classify_failed o e hv hcf
  refine ⟨hcl, by simp [hcl], ?_⟩
  simp [process_email, hres, dictGet, hi]

/-- C4 (witness): the first sample email with an always-raising service. -/
theorem C4_classification_error_witness :
    classify_email oracleNone emailOK = none ∧
    ¬ classify_email oracleNone emailOK = some "other" ∧
    process_email oracleNone emailOK =
      { email_id := "001", success := false,
        classification := "Email classification error.",
        response_sent := none } :=
  C4_classification_error oracleNone emailOK "001" (by decide) rfl rfl

/-- C5: for every valid email whose classification succeeds but whose
generation remote call raises, `process_email` returns `success=false`
with the generation-error phrase and no response; the determined
category is not reported (the classification field is not a category). -/
theorem C5_generation_error (o : Oracle) (e : Email) (i s : String)
    (hv : validate_email e = true) (hi : e.id = some i)
    (hc : o.classifyResp e = some s)
    (hg : o.generateResp e (normalizeCategory s) = none) :
    process_email o e =
      { email_id := i, success := false,
        classification := "Response generation error.",
        response_sent := none } ∧
    ¬ (process_email o e).classification ∈ validCategories := by
  have hcl : classify_email o e = some (normalizeCategory s) := by
    simp [classify_email, hc]
  have hcf : pyFalsyStrOpt (classify_email o e) = false := by
    rw [hcl]
    simp [pyFalsyStrOpt, normalizeCategory_ne_empty s]
  have hgen : generate_response o e ((classify_email o e).getD "") = none := by
    rw [hcl]
    simp [generate_response, hg]
  have hrf : pyFalsyStrOpt
      (generate_response o e ((classify_email o e).getD "")) = true := by
    rw [hgen]
    rfl
  have hres := process_email_t_generation_failed o e hv hcf hrf
  have h1 : process_email o e =
      { email_id := i, success := false,
        classification := "Response generation error.",
        response_sent := none } := by
    simp [process_email, hres, dictGet, hi]
  refine ⟨h1, ?_⟩
  rw [h1]
  show ¬ "Response generation error." ∈ validCategories
  decide

/-- C5 (witness): the first sample email with a service that classifies
but raises on generation. -/
theorem C5_generation_error_witness :
    process_email oracleGenFail emailOK =
      { email_id := "001", success := false,
        classification := "Response generation error.",
        response_sent := none } ∧
    ¬ (process_email oracleGenFail emailOK).classification ∈
        validCategories :=
  C5_generation_error oracleGenFail emailOK "001" "complaint"
    (by decide) rfl rfl rfl

/-- C6: for every string the remote service returns during
classification, `classify_email` reports the strip-and-lowercase
normalisation of it; when the normalised string is outside the four
named categories the result is the category `"other"`, never a failure;
and `"Complaint"`, `" complaint "`, `"COMPLAINT"` all normalise to
`"complaint"`. -/
theorem C6_normalize (o : Oracle) (e : Email) (s : String)
    (hc : o.classifyResp e = some s) :
    classify_email o e = some (normalizeCategory s) ∧
    (¬ pyLower (pyStrip s) ∈
        (["complaint", "inquiry", "feedback", "support_request"] :
          List String) →
      classify_email o e = some "other") ∧
    normalizeCategory "Complaint" = "complaint" ∧
    normalizeCategory " complaint " = "complaint" ∧
    normalizeCategory "COMPLAINT" = "complaint" := by
  have hcl : classify_email o e = some (normalizeCategory s) := by
    simp [classify_email, hc]
  refine ⟨hcl, ?_, by decide, by decide, by decide⟩
  intro hfour
  rw [hcl]
  unfold normalizeCategory
  by_cases hmem : pyLower (pyStrip s) ∈ validCategories
  · have hoth : pyLower (pyStrip s) = "other" := by
      simp [validCategories] at hmem
      rcases hmem with h | h | h | h | h
      · rw [h] at hfour
        exact absurd (by decide) hfour
      · rw [h] at hfour
        exact absurd (by decide) hfour
      · rw [h] at hfour
        exact absurd (by decide) hfour
      · rw [h] at hfour
        exact absurd (by decide) hfour
      · exact h
    simp [hmem, hoth]
  · simp [hmem]

/-- C6 (witness): the normalisation facts at the concrete reply
`"Complaint"` of the always-complaint service. -/
theorem C6_normalize_witness :
    classify_email oracleGood emailOK = some (normalizeCategory "Complaint") ∧
    (¬ pyLower (pyStrip "Complaint") ∈
        (["complaint", "inquiry", "feedback", "support_request"] :
          List String) →
      classify_email oracleGood emailOK = some "other") ∧
    normalizeCategory "Complaint" = "complaint" ∧
    normalizeCategory " complaint " = "complaint" ∧
    normalizeCategory "COMPLAINT" = "complaint" :=
  C6_normalize oracleGood emailOK "Complaint" rfl

/-- C7: for every record with all fields present whose `from` passes the
address check, `validate` returns true iff the timestamp parses against
`"%Y-%m-%dT%H:%M:%SZ"`; in particular `"2024-03-15"` and
`"2024-03-15 10:30:00"` are rejected and `"2024-03-15T10:30:00Z"` is
accepted. -/
theorem C7_timestamp (e : Email) (i f sb b t : String)
    (h1 : e.id = some i) (h2 : e.«from» = some f) (h3 : e.subject = some sb)
    (h4 : e.body = some b) (h5 : e.timestamp = some t)
    (haddr : emailMatchCode f = true) :
    (validate_email e = true ↔ strptimeOk t = true) ∧
    strptimeOk "2024-03-15" = false ∧
    strptimeOk "2024-03-15 10:30:00" = false ∧
    strptimeOk "2024-03-15T10:30:00Z" = true := by
  have he := email_eq_mk e _ _ _ _ _ h1 h2 h3 h4 h5
  subst he
  refine ⟨?_, by decide, by decide, by decide⟩
  simp [validate_email, haddr]

/-- C7 (witness): the timestamp check at the first sample email. -/
theorem C7_timestamp_witness :
    (validate_email emailOK = true ↔
      strptimeOk "2024-03-15T10:30:00Z" = true) ∧
    strptimeOk "2024-03-15" = false ∧
    strptimeOk "2024-03-15 10:30:00" = false ∧
    strptimeOk "2024-03-15T10:30:00Z" = true :=
  C7_timestamp emailOK "001" "angry.customer@example.com"
    "Broken product received" "Damaged order, refund demanded."
    "2024-03-15T10:30:00Z" rfl rfl rfl rfl rfl (by decide)

/-- C8: for every oracle and every ordered batch, the batch runner
produces exactly one result per input email, in input order (the n-th
result is `process_email` of the n-th email), and the results carrying
`success=false` with the invalid-format phrase are exactly those of the
emails that fail validation — independent of the remote service's
behaviour, since the oracle is arbitrary. -/
theorem C8_batch (o : Oracle) (emails : List Email) :
    (runBatch o emails).length = emails.length ∧
    (∀ n : Nat, (runBatch o emails)[n]? =
      Option.map (process_email o) emails[n]?) ∧
    (runBatch o emails).countP isInvalidResult =
      emails.countP (fun e => !validate_email e) ∧
    (∀ e : Email, isInvalidResult (process_email o e) = !validate_email e) := by
  have hpt : ∀ e : Email,
      isInvalidResult (process_email o e) = !validate_email e := by
    intro e
    cases hv : validate_email e with
    | false =>
      have hres := process_email_t_invalid o e hv
      simp [process_email, hres, isInvalidResult]
    | true =>
      cases hcf : pyFalsyStrOpt (classify_email o e) with
      | true =>
        have hres := process_email_t_classify_failed o e hv hcf
        simp [process_email, hres, isInvalidResult]
      | false =>
        cases hrf : pyFalsyStrOpt
            (generate_response o e ((classify_email o e).getD "")) with
        | true =>
          have hres := process_email_t_generation_failed o e hv hcf hrf
          simp [process_email, hres, isInvalidResult]
        | false =>
          have hres := process_email_t_ok o e hv hcf hrf
          simp [process_email, hres, isInvalidResult]
  refine ⟨by simp [runBatch], ?_, ?_, hpt⟩
  · intro n
    simp [runBatch]
  · unfold runBatch
    rw [List.countP_map]
    exact List.countP_congr fun e _ => by simp [Function.comp, hpt e]

/-- C9: an email that fails validation is given its terminal failure
result with no remote call at all, and its result does not depend on the
remote service; more generally no stage runs after a failed one — when
classification fails, only the classification call was made. -/
theorem C9_fail_fast (o o₂ : Oracle) (e e₂ : Email)
    (hv : validate_email e = false)
    (hv₂ : validate_email e₂ = true)
    (hc₂ : o.classifyResp e₂ = none) :
    (process_email_t o e).2 = [] ∧
    process_email o e = process_email o₂ e ∧
    process_email o e =
      { email_id := e.id.getD "Uknown", success := false,
        classification := "Email in invalid format.", response_sent := none } ∧
    (process_email_t o e₂).2 = [RemoteCall.classify] := by
  have h1 := process_email_t_invalid o e hv
  have h2 := process_email_t_invalid o₂ e hv
  have hcl : classify_email o e₂ = none := by simp [classify_email, hc₂]
  have hcf : pyFalsyStrOpt (classify_email o e₂) = true := by
    rw [hcl]
    rfl
  have h3 := process_email_t_classify_failed o e₂ hv₂ hcf
  exact ⟨by simp [h1], by simp [process_email, h1, h2],
    by simp [process_email, h1], by simp [h3]⟩

/-- C9 (witness): the empty record with the always-raising service
against the always-complaint service, and the first sample email under
the always-raising service for the classification-failure trace. -/
theorem C9_fail_fast_witness :
    (process_email_t oracleNone emailNoFields).2 = [] ∧
    process_email oracleNone emailNoFields =
      process_email oracleGood emailNoFields ∧
    process_email oracleNone emailNoFields =
      { email_id := emailNoFields.id.getD "Uknown", success := false,
        classification := "Email in invalid format.", response_sent := none } ∧
    (process_email_t oracleNone emailOK).2 = [RemoteCall.classify] :=
  C9_fail_fast oracleNone oracleGood emailNoFields emailOK
    (by decide) (by decide) rfl

/-- C10: for every valid email whose generation call succeeds with reply
text that strips to the empty string, `generate_response` returns the
empty string (not `None`), yet `process_email`'s falsy check yields the
generation-error result — equal to the result produced by a run whose
generation call raises, so the two are indistinguishable in the result. -/
theorem C10_empty_reply (o o₂ : Oracle) (e : Email) (i s s₂ t : String)
    (hv : validate_email e = true) (hi : e.id = some i)
    (hc : o.classifyResp e = some s)
    (hg : o.generateResp e (normalizeCategory s) = some t)
    (ht : pyStrip t = "")
    (hc₂ : o₂.classifyResp e = some s₂)
    (hg₂ : o₂.generateResp e (normalizeCategory s₂) = none) :
    generate_response o e (normalizeCategory s) = some "" ∧
    process_email o e =
      { email_id := i, success := false,
        classification := "Response generation error.",
        response_sent := none } ∧
    process_email o e = process_email o₂ e := by
  have hgen0 : generate_response o e (normalizeCategory s) = some "" := by
    simp [generate_response, hg, ht]
  have hcl : classify_email o e = some (normalizeCategory s) := by
    simp [classify_email, hc]
  have hcf : pyFalsyStrOpt (classify_email o e) = false := by
    rw [hcl]
    simp [pyFalsyStrOpt, normalizeCategory_ne_empty s]
  have hgen : generate_response o e ((classify_email o e).getD "") =
      some "" := by
    rw [hcl]
    simpa using hgen0
  have hrf : pyFalsyStrOpt
      (generate_response o e ((classify_email o e).getD "")) = true := by
    rw [hgen]
    rfl
  have hres := process_email_t_generation_failed o e hv hcf hrf
  have h1 : process_email o e =
      { email_id := i, success := false,
        classification := "Response generation error.",
        response_sent := none } := by
    simp [process_email, hres, dictGet, hi]
  have hcl₂ : classify_email o₂ e = some (normalizeCategory s₂) := by
    simp [classify_email, hc₂]
  have hcf₂ : pyFalsyStrOpt (classify_email o₂ e) = false := by
    rw [hcl₂]
    simp [pyFalsyStrOpt, normalizeCategory_ne_empty s₂]
  have hgen₂ : generate_response o₂ e ((classify_email o₂ e).getD "") =
      none := by
    rw [hcl₂]
    simp [generate_response, hg₂]
  have hrf₂ : pyFalsyStrOpt
      (generate_response o₂ e ((classify_email o₂ e).getD "")) = true := by
    rw [hgen₂]
    rfl
  have hres₂ := process_email_t_generation_failed o₂ e hv hcf₂ hrf₂
  have h2 : process_email o₂ e =
      { email_id := i, success := false,
        classification := "Response generation error.",
        response_sent := none } := by
    simp [process_email, hres₂, dictGet, hi]
  exact ⟨hgen0, h1, h1.trans h2.symm⟩

/-- C10 (witness): the first sample email under the all-whitespace-reply
service against the generation-raising service. -/
theorem C10_empty_reply_witness :
    generate_response oracleEmptyReply emailOK
      (normalizeCategory "complaint") = some "" ∧
    process_email oracleEmptyReply emailOK =
      { email_id := "001", success := false,
        classification := "Response generation error.",
        response_sent := none } ∧
    process_email oracleEmptyReply emailOK =
      process_email oracleGenFail emailOK :=
  C10_empty_reply oracleEmptyReply oracleGenFail emailOK "001"
    "complaint" "complaint" "   " (by decide) rfl rfl rfl (by decide) rfl rfl

end EmailAutomation
